import Mathlib

/-!
Shallow embedding of the `service` package of Packetdancer/go-bluetooth
(files `service/Application.go` and the `LEAdvertisement1` file), together
with theorems checking the specification's claims about it.

Modelling conventions:
* Go `string` is Lean `String`; Go `len` on a string counts bytes, modelled
  with `String.utf8ByteSize`.
* A Go byte slice `[]byte` is `Option (List Nat)`: `none` models a nil
  slice, `some l` a non-nil slice with contents `l` (so `some []` is the
  non-nil empty slice produced by `make([]byte, 0)`).
* A Go `error` result is `Option String` (`none` = nil error, `some m` = an
  error whose `Error()` message is `m`).
* A Go map is an association list with unique keys; `dbus.ObjectPath` is a
  `String`.
* Go `int` is a 64 bit two's-complement integer: its values live in
  `[int64Min, int64Max]` and the increment `serviceIndex++` wraps on
  overflow, modelled by `int64Wrap`; `strconv.Itoa` is
  `toString : Int → String`.
* External IPC effects (the dbus connection's `Export`, signal emission,
  and synchronous daemon calls) are modelled by explicit environment
  parameters carrying the outcome of each external call, and by returning
  the list of daemon calls performed.
* The user callbacks take the `Application` as their first Go argument;
  the model elides that argument (it only gives the callback access to
  user state and cannot influence the dispatch logic being verified).
-/

namespace GoBluetooth

/-- Go map insertion `m[k] = v` on an association list: replace the value
at the key when present, otherwise append the binding. -/
def mapPut {α : Type} : List (String × α) → String → α → List (String × α)
  | [], k, v => [(k, v)]
  | (k1, v1) :: rest, k, v =>
      if k1 = k then (k, v) :: rest else (k1, v1) :: mapPut rest k v

/-- Go map deletion `delete(m, k)` on an association list. -/
def mapDelete {α : Type} : List (String × α) → String → List (String × α)
  | [], _ => []
  | (k1, v1) :: rest, k =>
      if k1 = k then rest else (k1, v1) :: mapDelete rest k

/-- Go map lookup `m[k]` returning an option. -/
def mapLookup {α : Type} : List (String × α) → String → Option α
  | [], _ => none
  | (k1, v1) :: rest, k => if k1 = k then some v1 else mapLookup rest k

/-- `UUIDSuffix` — the fixed 128 bit UUID suffix constant from
`Application.go`. -/
def UUIDSuffix : String := "-0000-1000-8000-00805F9B34FB"

/-- `CallbackError` from `Application.go`: a message and a numeric code.
`Error()` returns the message. -/
structure CallbackError where
  msg : String
  code : Int
deriving DecidableEq, Repr

/-- `NewCallbackError` from `Application.go`. -/
def NewCallbackError (code : Int) (msg : String) : CallbackError :=
  { msg := msg, code := code }

/-- `CALLBACK_NOT_REGISTERED` constant. -/
def CALLBACK_NOT_REGISTERED : Int := -1

/-- `CALLBACK_FUNCTION_ERROR` constant. -/
def CALLBACK_FUNCTION_ERROR : Int := -2

/-- `GattWriteCallback`: `func(app, service_uuid, char_uuid, value) error`
(the `app` argument is elided, see the module docstring). -/
def GattWriteCallback : Type := String → String → List Nat → Option String

/-- `GattReadCallback`: `func(app, service_uuid, char_uuid) ([]byte, error)`. -/
def GattReadCallback : Type := String → String → Option (List Nat) × Option String

/-- `GattDescriptorWriteCallback`:
`func(app, service_uuid, char_uuid, desc_uuid, value) error`. -/
def GattDescriptorWriteCallback : Type :=
  String → String → String → List Nat → Option String

/-- `GattDescriptorReadCallback`:
`func(app, service_uuid, char_uuid, desc_uuid) ([]byte, error)`. -/
def GattDescriptorReadCallback : Type :=
  String → String → String → Option (List Nat) × Option String

/-- Modelled from the spec: `GattService1Properties` (the service property
bag from the external `profile` package; only the fields the spec
mentions — the UUID and the primary flag — are carried). -/
structure GattService1Properties where
  UUID : String
  Primary : Bool
deriving DecidableEq, Repr

/-- Modelled from the spec: a descriptor node — the `GattDescriptor1`
implementation is not under `src/`; per the spec it carries a UUID and is
keyed in its parent's child map by its allocated sub-path. -/
structure GattDescriptor1 where
  objectPath : String
  uuid : String
deriving DecidableEq, Repr

/-- Modelled from the spec: a characteristic node — the
`GattCharacteristic1` implementation is not under `src/`; per the spec it
carries a UUID and a map of descriptor children keyed by their own
allocated sub-path (`GetDescriptors`). -/
structure GattCharacteristic1 where
  objectPath : String
  uuid : String
  descriptors : List (String × GattDescriptor1)
deriving DecidableEq, Repr

/-- `GattService1` — the implementation is not under `src/`; modelled from
the spec: a node carrying its allocated object path (`Path()`), its index
`ID`, the `advertised` flag (`Advertised()`), its property bag
(`properties`, read by `StartAdvertising` as `serv.properties.UUID`), and
a map of characteristic children keyed by their sub-path
(`GetCharacteristics`). -/
structure GattService1 where
  objectPath : String
  ID : Int
  advertised : Bool
  properties : GattService1Properties
  characteristics : List (String × GattCharacteristic1)
deriving DecidableEq, Repr

/-- `GattService1.Path()`. -/
def GattService1.Path (s : GattService1) : String := s.objectPath

/-- `GattService1.Advertised()`. -/
def GattService1.Advertised (s : GattService1) : Bool := s.advertised

/-- `GattService1.GetCharacteristics()`. -/
def GattService1.GetCharacteristics (s : GattService1) :
    List (String × GattCharacteristic1) := s.characteristics

/-- `GattCharacteristic1.GetDescriptors()`. -/
def GattCharacteristic1.GetDescriptors (c : GattCharacteristic1) :
    List (String × GattDescriptor1) := c.descriptors

/-- Modelled from the spec: `Service.Properties()` follows the same
pattern as the advertisement's `Properties()` — exactly one interface
entry mapping to the full property struct. -/
def GattService1.Properties (s : GattService1) :
    List (String × GattService1Properties) :=
  [("org.bluez.GattService1", s.properties)]

/-- Modelled from the spec: the `ObjectManager` ("object directory") —
its implementation is not under `src/`; it maintains
`path → (interface → properties)` for every live node. -/
structure ObjectManager where
  objects : List (String × List (String × GattService1Properties))
deriving DecidableEq, Repr

/-- Modelled from the spec: `ObjectManager.AddObject` adds the node's
interface/property snapshot to the directory, then emits the add
notification; the outcome of the (external) signal emission is the
`signalResult` parameter, returned after the snapshot was stored. -/
def ObjectManager.AddObject (om : ObjectManager) (path : String)
    (props : List (String × GattService1Properties))
    (signalResult : Option String) : ObjectManager × Option String :=
  ({ objects := mapPut om.objects path props }, signalResult)

/-- Modelled from the spec: `ObjectManager.RemoveObject` removes the
directory entry, then emits the remove notification; the outcome of the
(external) signal emission is the `signalResult` parameter. -/
def ObjectManager.RemoveObject (om : ObjectManager) (path : String)
    (signalResult : Option String) : ObjectManager × Option String :=
  ({ objects := mapDelete om.objects path }, signalResult)

/-- `LEAdvertisement1Properties` from the advertisement file (maps are
association lists, `uint16` fields are `Nat`). -/
structure LEAdvertisement1Properties where
  «Type» : String
  ServiceUUIDs : List String
  ManufacturerData : List (String × List Nat)
  SolicitUUIDs : List String
  ServiceData : List (String × List Nat)
  Includes : List String
  LocalName : String
  Appearance : Nat
  Duration : Nat
  Timeout : Nat
deriving DecidableEq, Repr

/-- `LEAdvertisement1` together with the path fields of its
`LEAdvertisement1Config` (the `app` and `conn` back-references are
external and elided). -/
structure LEAdvertisement1 where
  objectPath : String
  device_path : String
  properties : LEAdvertisement1Properties
deriving DecidableEq, Repr

/-- `ApplicationConfig` from `Application.go` (the `conn` field is the
external dbus connection and is elided). -/
structure ApplicationConfig where
  UUIDSuffix : String
  UUID : String
  ObjectName : String
  ObjectPath : String
  serviceIndex : Int
  LocalName : String
  WriteFunc : Option GattWriteCallback
  ReadFunc : Option GattReadCallback
  DescWriteFunc : Option GattDescriptorWriteCallback
  DescReadFunc : Option GattDescriptorReadCallback

/-- The introspection interface descriptor (only the name is relevant to
the tree shape; methods/signals live in the external `introspect`
package). -/
structure IntrospectInterface where
  name : String
deriving DecidableEq, Repr

/-- `introspect.IntrospectData` (generic introspection interface). -/
def IntrospectData : IntrospectInterface :=
  { name := "org.freedesktop.DBus.Introspectable" }

/-- `bluez.ObjectManagerIntrospectData` (object-manager interface). -/
def ObjectManagerIntrospectData : IntrospectInterface :=
  { name := "org.freedesktop.DBus.ObjectManager" }

/-- `introspect.Node`: the published introspection node shape (name,
interfaces, children). -/
structure IntrospectNode where
  name : String
  interfaces : List IntrospectInterface
  children : List IntrospectNode

/-- `Application` from `Application.go`. The config is embedded; the
`publishedTree` field models the introspection object currently exported
on the connection at the application path (what `exportTree` publishes). -/
structure Application where
  config : ApplicationConfig
  objectManager : ObjectManager
  services : List (String × GattService1)
  advertisement : Option LEAdvertisement1
  publishedTree : Option IntrospectNode

/-- `Application.Path()`. -/
def Application.Path (app : Application) : String := app.config.ObjectPath

/-- `Application.Name()`. -/
def Application.Name (app : Application) : String := app.config.ObjectName

/-- `Application.GetObjectManager()`. -/
def Application.GetObjectManager (app : Application) : ObjectManager :=
  app.objectManager

/-- `Application.GetServices()`. -/
def Application.GetServices (app : Application) :
    List (String × GattService1) := app.services

/-- `Application.GenerateUUID` from `Application.go`:
```
base := app.config.UUID
if len(uuidVal) == 8 { base = "" }
return base + uuidVal + app.config.UUIDSuffix
``` -/
def Application.GenerateUUID (app : Application) (uuidVal : String) : String :=
  let base := if uuidVal.utf8ByteSize = 8 then "" else app.config.UUID
  base ++ uuidVal ++ app.config.UUIDSuffix

/-- `Application.HandleRead` from `Application.go`. -/
def Application.HandleRead (app : Application) (srv_uuid uuid : String) :
    Option (List Nat) × Option CallbackError :=
  match app.config.ReadFunc with
  | none => (some [], some (NewCallbackError (-1) "No callback registered."))
  | some f =>
      let r := f srv_uuid uuid
      match r.2 with
      | some m => (r.1, some (NewCallbackError (-2) m))
      | none => (r.1, none)

/-- `Application.HandleWrite` from `Application.go`. -/
def Application.HandleWrite (app : Application) (srv_uuid uuid : String)
    (value : List Nat) : Option CallbackError :=
  match app.config.WriteFunc with
  | none => some (NewCallbackError (-1) "No callback registered.")
  | some f =>
      match f srv_uuid uuid value with
      | some m => some (NewCallbackError (-2) m)
      | none => none

/-- `Application.HandleDescriptorRead` from `Application.go`. -/
def Application.HandleDescriptorRead (app : Application)
    (srv_uuid char_uuid desc_uuid : String) :
    Option (List Nat) × Option CallbackError :=
  match app.config.DescReadFunc with
  | none => (some [], some (NewCallbackError (-1) "No callback registered."))
  | some f =>
      let r := f srv_uuid char_uuid desc_uuid
      match r.2 with
      | some m => (r.1, some (NewCallbackError (-2) m))
      | none => (r.1, none)

/-- `Application.HandleDescriptorWrite` from `Application.go`. -/
def Application.HandleDescriptorWrite (app : Application)
    (srv_uuid char_uuid desc_uuid : String) (value : List Nat) :
    Option CallbackError :=
  match app.config.DescWriteFunc with
  | none => some (NewCallbackError (-1) "No callback registered.")
  | some f =>
      match f srv_uuid char_uuid desc_uuid value with
      | some m => some (NewCallbackError (-2) m)
      | none => none

/-- The service path built by `CreateService`:
`appPath + "/service" + strconv.Itoa(index)`, with a root path `"/"`
collapsing to the empty prefix. -/
def servicePathFor (objectPath : String) (idx : Int) : String :=
  (if objectPath = "/" then "" else objectPath) ++ "/service" ++ toString idx

/-- The smallest value of Go's 64 bit `int`, `-2^63`. -/
def int64Min : Int := -9223372036854775808

/-- The largest value of Go's 64 bit `int`, `2^63 - 1`. -/
def int64Max : Int := 9223372036854775807

/-- Reduction of an integer into Go's 64 bit two's-complement range
`[int64Min, int64Max]` (the modulus is `2^64`): this is what Go's
wrapping arithmetic produces on overflow. -/
def int64Wrap (i : Int) : Int :=
  (i - int64Min) % 18446744073709551616 + int64Min

/-- `Application.CreateService` from `Application.go`: increments
`serviceIndex` (a Go `int`, so with 64 bit wraparound), allocates the
path, and builds an unexposed service node (the variadic
`advertised_optional` parameter is the Go slice of optional arguments;
`NewGattService1` constructs the node, modelled from the spec as always
succeeding with no characteristics yet). -/
def Application.CreateService (app : Application)
    (props : GattService1Properties) (advertised_optional : List Bool) :
    Application × GattService1 :=
  let idx := int64Wrap (app.config.serviceIndex + 1)
  let app1 : Application :=
    { app with config := { app.config with serviceIndex := idx } }
  let appPath := if app1.Path = "/" then "" else app1.Path
  let service_advertised :=
    match advertised_optional with
    | [] => false
    | b :: _ => b
  let path := appPath ++ "/service" ++ toString idx
  let s : GattService1 :=
    { objectPath := path, ID := idx, advertised := service_advertised,
      properties := props, characteristics := [] }
  (app1, s)

/-- The child node `introspect.Node{Name: string(path)[1:]}` appended by
`exportTree` for each walked path: only the name is set, with the path's
first character stripped. -/
def childNode (p : String) : IntrospectNode :=
  { name := p.drop 1, interfaces := [], children := [] }

/-- The children list built by `exportTree`'s nested loops: for each
service a node named by the service path with its first character
stripped, then for each of its characteristics a node likewise, then for
each of that characteristic's descriptors a node likewise. -/
def exportTreeChildren (services : List (String × GattService1)) :
    List IntrospectNode :=
  services.foldl
    (fun acc x =>
      let acc1 := acc ++ [childNode x.1]
      x.2.GetCharacteristics.foldl
        (fun acc2 y =>
          let acc3 := acc2 ++ [childNode y.1]
          y.2.GetDescriptors.foldl
            (fun acc4 z => acc4 ++ [childNode z.1])
            acc3)
        acc1)
    []

/-- The full object paths of every currently registered service,
characteristic and descriptor, in the walk order of `exportTree`'s
loops. -/
def treeWalkPaths (services : List (String × GattService1)) : List String :=
  services.foldl
    (fun acc x =>
      let acc1 := acc ++ [x.1]
      x.2.GetCharacteristics.foldl
        (fun acc2 y =>
          let acc3 := acc2 ++ [y.1]
          y.2.GetDescriptors.foldl
            (fun acc4 z => acc4 ++ [z.1])
            acc3)
        acc1)
    []

/-- The introspection node built by `exportTree`: the two always-present
interfaces plus the children list. -/
def exportTreeNode (app : Application) : IntrospectNode :=
  { name := "",
    interfaces := [IntrospectData, ObjectManagerIntrospectData],
    children := exportTreeChildren app.GetServices }

/-- `Application.exportTree` from `Application.go`: builds the node and
exports it on the connection at the application path; `exportResult` is
the outcome of the external `conn.Export` call — on success the published
tree is replaced, on failure the error is returned and the previously
published tree is untouched. -/
def Application.exportTree (app : Application) (exportResult : Option String) :
    Application × Option String :=
  match exportResult with
  | some e => (app, some e)
  | none => ({ app with publishedTree := some (exportTreeNode app) }, none)

/-- Outcomes of the three external calls made by `AddService`: the
service object's IPC export (`service.Expose()`), the introspection
re-export inside `exportTree`, and the directory's add-notification
emission inside `AddObject`. -/
structure AddServiceEnv where
  exposeResult : Option String
  exportResult : Option String
  addObjectResult : Option String
deriving DecidableEq, Repr

/-- `Application.AddService` from `Application.go`:
```
app.services[service.Path()] = service
err := service.Expose();          if err != nil { return err }
err = app.exportTree();           if err != nil { return err }
err = app.GetObjectManager().AddObject(service.Path(), service.Properties())
return err
``` -/
def Application.AddService (app : Application) (service : GattService1)
    (env : AddServiceEnv) : Application × Option String :=
  let app1 : Application :=
    { app with services := mapPut app.services service.Path service }
  match env.exposeResult with
  | some e => (app1, some e)
  | none =>
      match app1.exportTree env.exportResult with
      | (app2, some e) => (app2, some e)
      | (app2, none) =>
          let r := app2.GetObjectManager.AddObject service.Path
            service.Properties env.addObjectResult
          ({ app2 with objectManager := r.1 }, r.2)

/-- Outcomes of the external calls made by `RemoveService`: the
directory's remove-notification emission inside `RemoveObject` and the
introspection re-export inside `exportTree`. -/
structure RemoveServiceEnv where
  removeObjectResult : Option String
  exportResult : Option String
deriving DecidableEq, Repr

/-- `Application.RemoveService` from `Application.go`: when the service
path is present, deletes it from the map, removes the directory entry
(child characteristics/descriptors are NOT purged — the literal TODO in
the source), then re-exports the tree; when absent, does nothing and
returns nil. -/
def Application.RemoveService (app : Application) (service : GattService1)
    (env : RemoveServiceEnv) : Application × Option String :=
  match mapLookup app.services service.Path with
  | some _ =>
      let app1 : Application :=
        { app with services := mapDelete app.services service.Path }
      let r := app1.GetObjectManager.RemoveObject service.Path
        env.removeObjectResult
      let app2 : Application := { app1 with objectManager := r.1 }
      match r.2 with
      | some e => (app2, some e)
      | none =>
          match app2.exportTree env.exportResult with
          | (app3, some e) => (app3, some e)
          | (app3, none) => (app3, none)
  | none => (app, none)

/-- A synchronous outbound call to the external daemon's advertising
manager (`org.bluez`), with the device object path it targets, the
advertisement path argument and, for registration, the options map. -/
inductive DaemonCall where
  | registerAdvertisement (devicePath : String) (advPath : String)
      (options : List (String × String))
  | unregisterAdvertisement (devicePath : String) (advPath : String)
deriving DecidableEq, Repr

/-- Outcomes of the external calls made by `StartAdvertising`:
`NewLEAdvertisement1` (the properties-interface construction),
`advertisement.Expose()`, and the daemon's `RegisterAdvertisement`
reply. -/
structure StartAdvEnv where
  newAdvResult : Option String
  exposeResult : Option String
  registerResult : Option String
deriving DecidableEq, Repr

/-- `Application.StartAdvertising` from `Application.go`. Returns the new
state, the daemon calls issued, and the error result. When an
advertisement is already active it returns nil immediately. Otherwise it
builds the advertisement at the fixed path `"/org/bluez/advertisement/0"`
with type `"peripheral"` and the UUIDs of the advertised services, exports
it, and issues one `RegisterAdvertisement` call with an empty options map
to the device path `"/org/bluez/" + device_name`. On a
`NewLEAdvertisement1` failure the nil result of the Go multi-assignment
leaves `app.advertisement` nil; after a successful construction the
reference stays set even when a later step fails. -/
def Application.StartAdvertising (app : Application) (device_name : String)
    (env : StartAdvEnv) : Application × List DaemonCall × Option String :=
  match app.advertisement with
  | some _ => (app, [], none)
  | none =>
      let path := "/org/bluez/advertisement/0"
      let device_objpath := "/org/bluez/" ++ device_name
      let serv_uuids :=
        (app.services.filter (fun x => x.2.Advertised)).map
          (fun x => x.2.properties.UUID)
      let props : LEAdvertisement1Properties :=
        { «Type» := "peripheral", ServiceUUIDs := serv_uuids,
          ManufacturerData := [], SolicitUUIDs := [], ServiceData := [],
          Includes := [], LocalName := app.config.LocalName,
          Appearance := 0, Duration := 2, Timeout := 60 }
      match env.newAdvResult with
      | some e => (app, [], some e)
      | none =>
          let adv : LEAdvertisement1 :=
            { objectPath := path, device_path := device_objpath,
              properties := props }
          let app1 : Application := { app with advertisement := some adv }
          match env.exposeResult with
          | some e => (app1, [], some e)
          | none =>
              let options : List (String × String) := []
              let call := DaemonCall.registerAdvertisement device_objpath
                path options
              match env.registerResult with
              | some e => (app1, [call], some e)
              | none => (app1, [call], none)

/-- `Application.StopAdvertising` from `Application.go`: nil immediately
when not advertising; otherwise issues one `UnregisterAdvertisement`
daemon call, clears the local advertisement reference unconditionally,
and returns the daemon's result. -/
def Application.StopAdvertising (app : Application)
    (unregisterResult : Option String) :
    Application × List DaemonCall × Option String :=
  match app.advertisement with
  | none => (app, [], none)
  | some adv =>
      let call := DaemonCall.unregisterAdvertisement adv.device_path
        adv.objectPath
      let app1 : Application := { app with advertisement := none }
      match unregisterResult with
      | some e => (app1, [call], some e)
      | none => (app1, [call], none)

/-- Numeric value of a decimal digit character. -/
def decDigitVal (c : Char) : Nat := c.toNat - 48

/-- Decimal value of a digit list, most significant digit first. -/
def decListVal (l : List Char) : Nat :=
  l.foldl (fun a c => 10 * a + decDigitVal c) 0

/-- One caller-driven tree mutation: a `CreateService` call (with its
property bag and optional advertised flag) or a `RemoveService` call
(with its target and the outcomes of the external calls it makes). -/
inductive AppOp where
  | create (props : GattService1Properties) (adv : List Bool)
  | remove (s : GattService1) (env : RemoveServiceEnv)

/-- Run a sequence of `CreateService` / `RemoveService` calls from a
state, returning the final state and the object paths allocated by the
`CreateService` calls, in order. -/
def runOps : Application → List AppOp → Application × List String
  | app, [] => (app, [])
  | app, AppOp.create p a :: rest =>
      let r := app.CreateService p a
      let rr := runOps r.1 rest
      (rr.1, r.2.objectPath :: rr.2)
  | app, AppOp.remove s env :: rest =>
      runOps (app.RemoveService s env).1 rest

/-- The number of `CreateService` calls in an operation sequence. -/
def countCreates : List AppOp → Nat
  | [] => 0
  | AppOp.create _ _ :: rest => countCreates rest + 1
  | AppOp.remove _ _ :: rest => countCreates rest

/-! ### Concrete fixtures used by witnesses and counterexamples. -/

/-- A configuration with the Bluetooth SIG base prefix `"0000"`, the
fixed suffix, and no callbacks registered. -/
def sampleConfig : ApplicationConfig :=
  { UUIDSuffix := UUIDSuffix, UUID := "0000",
    ObjectName := "org.example.app", ObjectPath := "/org/example/app",
    serviceIndex := 0, LocalName := "example",
    WriteFunc := none, ReadFunc := none,
    DescWriteFunc := none, DescReadFunc := none }

/-- A fresh application with no services, no advertisement and no
callbacks. -/
def sampleApp : Application :=
  { config := sampleConfig, objectManager := { objects := [] },
    services := [], advertisement := none, publishedTree := none }

/-- A write callback that always fails with message `"boom"`. -/
def failWriteCb : GattWriteCallback := fun _ _ _ => some "boom"

/-- A read callback that always fails with message `"boom"` while
returning payload `[1, 2]`. -/
def failReadCb : GattReadCallback := fun _ _ => (some [1, 2], some "boom")

/-- A descriptor write callback that always succeeds. -/
def okDescWriteCb : GattDescriptorWriteCallback := fun _ _ _ _ => none

/-- A descriptor read callback that succeeds with payload `[9]`. -/
def okDescReadCb : GattDescriptorReadCallback := fun _ _ _ => (some [9], none)

/-- An application with all four callback slots registered to the
concrete callbacks above. -/
def cbApp : Application :=
  { sampleApp with
    config :=
      { sampleConfig with
        WriteFunc := some failWriteCb, ReadFunc := some failReadCb,
        DescWriteFunc := some okDescWriteCb,
        DescReadFunc := some okDescReadCb } }

/-- A sample advertised service at the path `CreateService` would
allocate first under `sampleApp`. -/
def sampleService : GattService1 :=
  { objectPath := "/org/example/app/service1", ID := 1, advertised := true,
    properties := { UUID := "180D-0000-1000-8000-00805F9B34FB",
                    Primary := true },
    characteristics := [] }

/-- A sample advertisement object. -/
def sampleAdv : LEAdvertisement1 :=
  { objectPath := "/org/bluez/advertisement/0",
    device_path := "/org/bluez/hci0",
    properties :=
      { «Type» := "peripheral", ServiceUUIDs := [], ManufacturerData := [],
        SolicitUUIDs := [], ServiceData := [], Includes := [],
        LocalName := "example", Appearance := 0, Duration := 2,
        Timeout := 60 } }

/-- `sampleApp` with an active advertisement. -/
def advApp : Application := { sampleApp with advertisement := some sampleAdv }

/-- A `StartAdvertising` environment in which every external call
succeeds. -/
def allOkStartEnv : StartAdvEnv :=
  { newAdvResult := none, exposeResult := none, registerResult := none }

/-- `sampleApp` with its service counter at the largest 64 bit `int`
value, i.e. about to overflow. -/
def maxIdxApp : Application :=
  { sampleApp with config := { sampleConfig with serviceIndex := int64Max } }

/-! ### Decimal representation: the strings produced by `strconv.Itoa`
(modelled by `toString : Int → String`) are injective, which underlies the
uniqueness of the allocated service paths. -/

theorem toDigitsCore_eq_toDigits_append :
    ∀ n fuel acc, n < fuel →
      Nat.toDigitsCore 10 fuel n acc = Nat.toDigits 10 n ++ acc := by
  intro n
  induction n using Nat.strong_induction_on with
  | _ n ih =>
    intro fuel acc hfuel
    match fuel, hfuel with
    | fuel + 1, hfuel =>
      by_cases h10 : n / 10 = 0
      · simp [Nat.toDigitsCore, Nat.toDigits, h10]
      · have hn1 : 1 ≤ n := by
          by_contra hc
          interval_cases n
          simp at h10
        have hdiv : n / 10 < n := Nat.div_lt_self hn1 (by norm_num)
        have hfuel1 : n / 10 < fuel := by omega
        have lhs :
            Nat.toDigitsCore 10 (fuel + 1) n acc =
              Nat.toDigitsCore 10 fuel (n / 10)
                (Nat.digitChar (n % 10) :: acc) := by
          simp [Nat.toDigitsCore, h10]
        have rhs :
            Nat.toDigits 10 n =
              Nat.toDigitsCore 10 n (n / 10)
                [Nat.digitChar (n % 10)] := by
          simp [Nat.toDigits, Nat.toDigitsCore, h10]
        rw [lhs, ih (n / 10) hdiv fuel _ hfuel1, rhs,
          ih (n / 10) hdiv n _ hdiv, List.append_assoc]
        rfl

theorem decDigitVal_digitChar {d : Nat} (h : d < 10) :
    decDigitVal (Nat.digitChar d) = d := by
  interval_cases d <;> rfl

theorem decListVal_toDigits (n : Nat) :
    decListVal (Nat.toDigits 10 n) = n := by
  induction n using Nat.strong_induction_on with
  | _ n ih =>
    by_cases h10 : n / 10 = 0
    · have hlt : n < 10 := by omega
      have : Nat.toDigits 10 n = [Nat.digitChar (n % 10)] := by
        simp [Nat.toDigits, Nat.toDigitsCore, h10]
      rw [this]
      have hmod : n % 10 = n := Nat.mod_eq_of_lt hlt
      simp [decListVal, hmod, decDigitVal_digitChar hlt]
    · have hn1 : 1 ≤ n := by
        by_contra hc
        interval_cases n
        simp at h10
      have hdiv : n / 10 < n := Nat.div_lt_self hn1 (by norm_num)
      have hstep :
          Nat.toDigits 10 n =
            Nat.toDigits 10 (n / 10) ++ [Nat.digitChar (n % 10)] := by
        have : Nat.toDigits 10 n =
            Nat.toDigitsCore 10 n (n / 10) [Nat.digitChar (n % 10)] := by
          simp [Nat.toDigits, Nat.toDigitsCore, h10]
        rw [this, toDigitsCore_eq_toDigits_append (n / 10) n _ hdiv]
      rw [hstep]
      unfold decListVal
      rw [List.foldl_append]
      have := ih (n / 10) hdiv
      unfold decListVal at this
      rw [this]
      simp [decDigitVal_digitChar (Nat.mod_lt n (by norm_num : 0 < 10))]
      omega

theorem natRepr_inj {m n : Nat} (h : Nat.repr m = Nat.repr n) : m = n := by
  have hd : Nat.toDigits 10 m = Nat.toDigits 10 n := by
    have := congrArg String.data h
    simpa [Nat.repr, List.asString] using this
  have := congrArg decListVal hd
  rwa [decListVal_toDigits, decListVal_toDigits] at this

theorem toDigits_head_digit (n : Nat) :
    ∃ d, d < 10 ∧ (Nat.toDigits 10 n).head? = some (Nat.digitChar d) := by
  induction n using Nat.strong_induction_on with
  | _ n ih =>
    by_cases h10 : n / 10 = 0
    · refine ⟨n % 10, Nat.mod_lt n (by norm_num), ?_⟩
      simp [Nat.toDigits, Nat.toDigitsCore, h10]
    · have hn1 : 1 ≤ n := by
        by_contra hc
        interval_cases n
        simp at h10
      have hdiv : n / 10 < n := Nat.div_lt_self hn1 (by norm_num)
      obtain ⟨d, hd, hhead⟩ := ih (n / 10) hdiv
      refine ⟨d, hd, ?_⟩
      have hstep :
          Nat.toDigits 10 n =
            Nat.toDigits 10 (n / 10) ++ [Nat.digitChar (n % 10)] := by
        have : Nat.toDigits 10 n =
            Nat.toDigitsCore 10 n (n / 10) [Nat.digitChar (n % 10)] := by
          simp [Nat.toDigits, Nat.toDigitsCore, h10]
        rw [this, toDigitsCore_eq_toDigits_append (n / 10) n _ hdiv]
      rw [hstep]
      cases hds : Nat.toDigits 10 (n / 10) with
      | nil => rw [hds] at hhead; simp at hhead
      | cons c rest => rw [hds] at hhead; simp at hhead ⊢; exact hhead

theorem natRepr_head_not_dash (n : Nat) (l : List Char)
    (h : (Nat.repr n).data = '-' :: l) : False := by
  obtain ⟨d, hd, hhead⟩ := toDigits_head_digit n
  have : (Nat.repr n).data = Nat.toDigits 10 n := by
    simp [Nat.repr, List.asString]
  rw [this] at h
  rw [h] at hhead
  simp at hhead
  have : ('-' : Char) ≠ Nat.digitChar d := by
    interval_cases d <;> decide
  exact this hhead

theorem intToString_inj {i j : Int} (h : toString i = toString j) :
    i = j := by
  cases i with
  | ofNat m =>
      cases j with
      | ofNat k =>
          have hm : toString (Int.ofNat m) = Nat.repr m := rfl
          have hk : toString (Int.ofNat k) = Nat.repr k := rfl
          rw [hm, hk] at h
          exact congrArg Int.ofNat (natRepr_inj h)
      | negSucc k =>
          exfalso
          have hm : toString (Int.ofNat m) = Nat.repr m := rfl
          have hk : toString (Int.negSucc k) =
              "-" ++ Nat.repr (k + 1) := rfl
          rw [hm, hk] at h
          have := congrArg String.data h
          simp [String.data_append] at this
          exact natRepr_head_not_dash m _ this
  | negSucc m =>
      cases j with
      | ofNat k =>
          exfalso
          have hm : toString (Int.negSucc m) =
              "-" ++ Nat.repr (m + 1) := rfl
          have hk : toString (Int.ofNat k) = Nat.repr k := rfl
          rw [hm, hk] at h
          have := congrArg String.data h
          simp [String.data_append] at this
          exact natRepr_head_not_dash k _ this.symm
      | negSucc k =>
          have hm : toString (Int.negSucc m) =
              "-" ++ Nat.repr (m + 1) := rfl
          have hk : toString (Int.negSucc k) =
              "-" ++ Nat.repr (k + 1) := rfl
          rw [hm, hk] at h
          have hdata := congrArg String.data h
          simp [String.data_append] at hdata
          have hr : (Nat.repr (m + 1)) = (Nat.repr (k + 1)) := by
            apply String.ext
            exact hdata
          have hmk : m = k := by
            have := natRepr_inj hr
            omega
          rw [hmk]

theorem servicePathFor_inj (base : String) {i j : Int}
    (h : servicePathFor base i = servicePathFor base j) : i = j := by
  unfold servicePathFor at h
  have hdata := congrArg String.data h
  simp [String.data_append] at hdata
  exact intToString_inj (String.ext hdata)

/-! ### Path allocation under sequences of tree mutations. -/

theorem int64Wrap_eq_self {j : Int} (hlo : int64Min ≤ j)
    (hhi : j ≤ int64Max) : int64Wrap j = j := by
  unfold int64Wrap int64Min at *
  unfold int64Max at hhi
  omega

theorem createService_serviceIndex (app : Application)
    (p : GattService1Properties) (a : List Bool) :
    (app.CreateService p a).1.config.serviceIndex =
      int64Wrap (app.config.serviceIndex + 1) := rfl

theorem createService_objectPath (app : Application)
    (p : GattService1Properties) (a : List Bool) :
    (app.CreateService p a).1.config.ObjectPath =
      app.config.ObjectPath := rfl

theorem createService_allocated_path (app : Application)
    (p : GattService1Properties) (a : List Bool) :
    (app.CreateService p a).2.objectPath =
      servicePathFor app.config.ObjectPath
        (int64Wrap (app.config.serviceIndex + 1)) :=
  rfl

theorem removeService_config (app : Application) (s : GattService1)
    (env : RemoveServiceEnv) :
    (app.RemoveService s env).1.config = app.config := by
  cases hlook : mapLookup app.services s.Path <;>
    cases henv : env.removeObjectResult <;>
      cases hexp : env.exportResult <;>
        simp [Application.RemoveService, Application.exportTree,
          Application.GetObjectManager, ObjectManager.RemoveObject,
          hlook, henv, hexp]

theorem runOps_spec (ops : List AppOp) (app : Application)
    (hlo : int64Min ≤ app.config.serviceIndex)
    (hhi : app.config.serviceIndex + countCreates ops ≤ int64Max) :
    (runOps app ops).1.config.ObjectPath = app.config.ObjectPath ∧
    app.config.serviceIndex ≤ (runOps app ops).1.config.serviceIndex ∧
    ∃ idxs : List Int,
      (runOps app ops).2 = idxs.map (servicePathFor app.config.ObjectPath) ∧
      (∀ i ∈ idxs, app.config.serviceIndex < i) ∧
      List.Chain' (· < ·) idxs := by
  induction ops generalizing app with
  | nil => exact ⟨rfl, le_refl _, [], rfl, by simp, by simp⟩
  | cons op rest ih =>
    cases op with
    | create p a =>
        have hcnt : countCreates (AppOp.create p a :: rest) =
            countCreates rest + 1 := rfl
        rw [hcnt] at hhi
        have hwrap0 : int64Wrap (app.config.serviceIndex + 1) =
            app.config.serviceIndex + 1 := by
          apply int64Wrap_eq_self
          · unfold int64Min at hlo ⊢
            omega
          · unfold int64Max at hhi ⊢
            omega
        have hidx : (app.CreateService p a).1.config.serviceIndex =
            app.config.serviceIndex + 1 := hwrap0
        have hlo1 : int64Min ≤ (app.CreateService p a).1.config.serviceIndex := by
          rw [hidx]
          unfold int64Min at hlo ⊢
          omega
        have hhi1 : (app.CreateService p a).1.config.serviceIndex +
            countCreates rest ≤ int64Max := by
          rw [hidx]
          unfold int64Max at hhi ⊢
          omega
        obtain ⟨hpath, hle, idxs, heq, hgt, hchain⟩ :=
          ih (app.CreateService p a).1 hlo1 hhi1
        have hop : (app.CreateService p a).1.config.ObjectPath =
            app.config.ObjectPath := rfl
        refine ⟨by rw [← hop]; exact hpath, ?_, ?_⟩
        · calc app.config.serviceIndex
              ≤ app.config.serviceIndex + 1 := by omega
            _ = (app.CreateService p a).1.config.serviceIndex := hidx.symm
            _ ≤ (runOps (app.CreateService p a).1 rest).1.config.serviceIndex :=
              hle
        · refine ⟨(app.config.serviceIndex + 1) :: idxs, ?_, ?_, ?_⟩
          · show (app.CreateService p a).2.objectPath ::
                (runOps (app.CreateService p a).1 rest).2 = _
            rw [createService_allocated_path, hwrap0, heq, hop,
              List.map_cons]
          · intro i hi
            rcases List.mem_cons.mp hi with h | h
            · omega
            · have := hgt i h
              rw [hidx] at this
              omega
          · refine List.Chain'.cons' hchain ?_
            intro y hy
            have hmem := List.mem_of_mem_head? hy
            have := hgt y hmem
            rw [hidx] at this
            exact this
    | remove s env =>
        have hcfg := removeService_config app s env
        have hlo1 : int64Min ≤ (app.RemoveService s env).1.config.serviceIndex := by
          rw [hcfg]
          exact hlo
        have hhi1 : (app.RemoveService s env).1.config.serviceIndex +
            countCreates rest ≤ int64Max := by
          rw [hcfg]
          exact hhi
        obtain ⟨hpath, hle, idxs, heq, hgt, hchain⟩ :=
          ih (app.RemoveService s env).1 hlo1 hhi1
        refine ⟨?_, ?_, idxs, ?_, ?_, hchain⟩
        · show (runOps (app.RemoveService s env).1 rest).1.config.ObjectPath =
            app.config.ObjectPath
          rw [hpath, hcfg]
        · show app.config.serviceIndex ≤
            (runOps (app.RemoveService s env).1 rest).1.config.serviceIndex
          rw [← hcfg]
          exact hle
        · show (runOps (app.RemoveService s env).1 rest).2 = _
          rw [heq, hcfg]
        · intro i hi
          have := hgt i hi
          rw [hcfg] at this
          exact this

theorem runOps_paths_nodup (app : Application) (ops : List AppOp)
    (hlo : int64Min ≤ app.config.serviceIndex)
    (hhi : app.config.serviceIndex + countCreates ops ≤ int64Max) :
    ((runOps app ops).2).Nodup := by
  obtain ⟨-, -, idxs, heq, -, hchain⟩ := runOps_spec ops app hlo hhi
  rw [heq]
  have hpw : idxs.Pairwise (· < ·) := List.chain'_iff_pairwise.mp hchain
  have hnd : idxs.Nodup := hpw.imp (fun h => ne_of_lt h)
  exact hnd.map (fun i j h => servicePathFor_inj app.config.ObjectPath h)

/-! ### The `exportTree` children are the walked paths, name-stripped. -/

theorem exportTreeChildren_eq_map (services : List (String × GattService1)) :
    exportTreeChildren services = (treeWalkPaths services).map childNode := by
  have hdesc : ∀ (ds : List (String × GattDescriptor1)) (pacc : List String),
      ds.foldl (fun acc4 z => acc4 ++ [childNode z.1]) (pacc.map childNode) =
        (ds.foldl (fun acc4 z => acc4 ++ [z.1]) pacc).map childNode := by
    intro ds
    induction ds with
    | nil => intro pacc; rfl
    | cons d ds ihd =>
        intro pacc
        simp only [List.foldl_cons]
        have h1 : pacc.map childNode ++ [childNode d.1] =
            (pacc ++ [d.1]).map childNode := by simp
        rw [h1, ihd]
  have hchar : ∀ (cs : List (String × GattCharacteristic1))
      (pacc : List String),
      cs.foldl
          (fun acc2 y =>
            let acc3 := acc2 ++ [childNode y.1]
            y.2.GetDescriptors.foldl
              (fun acc4 z => acc4 ++ [childNode z.1])
              acc3)
          (pacc.map childNode) =
        (cs.foldl
          (fun acc2 y =>
            let acc3 := acc2 ++ [y.1]
            y.2.GetDescriptors.foldl
              (fun acc4 z => acc4 ++ [z.1])
              acc3)
          pacc).map childNode := by
    intro cs
    induction cs with
    | nil => intro pacc; rfl
    | cons c cs ihc =>
        intro pacc
        simp only [List.foldl_cons]
        have h1 : pacc.map childNode ++ [childNode c.1] =
            (pacc ++ [c.1]).map childNode := by simp
        rw [h1, hdesc, ihc]
  have hmain : ∀ (ss : List (String × GattService1)) (pacc : List String),
      ss.foldl
          (fun acc x =>
            let acc1 := acc ++ [childNode x.1]
            x.2.GetCharacteristics.foldl
              (fun acc2 y =>
                let acc3 := acc2 ++ [childNode y.1]
                y.2.GetDescriptors.foldl
                  (fun acc4 z => acc4 ++ [childNode z.1])
                  acc3)
              acc1)
          (pacc.map childNode) =
        (ss.foldl
          (fun acc x =>
            let acc1 := acc ++ [x.1]
            x.2.GetCharacteristics.foldl
              (fun acc2 y =>
                let acc3 := acc2 ++ [y.1]
                y.2.GetDescriptors.foldl
                  (fun acc4 z => acc4 ++ [z.1])
                  acc3)
              acc1)
          pacc).map childNode := by
    intro ss
    induction ss with
    | nil => intro pacc; rfl
    | cons s ss ihs =>
        intro pacc
        simp only [List.foldl_cons]
        have h1 : pacc.map childNode ++ [childNode s.1] =
            (pacc ++ [s.1]).map childNode := by simp
        rw [h1, hchar, ihs]
  have := hmain services []
  simpa [exportTreeChildren, treeWalkPaths] using this

/-! ### Claim theorems. -/

/-- C1 counterexample: the claim as stated is false on the code. When
export of the service object fails, `AddService` does return the export
error, but the service map is NOT left exactly as before the call: the
insertion `app.services[service.Path()] = service` happens before the
export attempt. Concretely, from the fresh `sampleApp`, adding
`sampleService` with a failing export returns the export error while the
service map has gained the new entry. -/
theorem addService_rollback_counterexample :
    (sampleApp.AddService sampleService
        { exposeResult := some "export failed", exportResult := none,
          addObjectResult := none }).2 = some "export failed" ∧
    (sampleApp.AddService sampleService
        { exposeResult := some "export failed", exportResult := none,
          addObjectResult := none }).1.services ≠ sampleApp.services := by
  exact ⟨rfl, by decide⟩

/-- C1 amended: if during `AddService` the IPC export of the service
object fails, then `AddService` returns that export error, and the
`ObjectManager` snapshot and the published introspection tree are exactly
as they were before the call — but the service map is not: it already
contains the new service entry, because the insertion precedes the export
attempt. -/
theorem addService_export_failure_spec (app : Application)
    (service : GattService1) (e : String) (env : AddServiceEnv)
    (h : env.exposeResult = some e) :
    app.AddService service env =
      ({ app with services := mapPut app.services service.Path service },
        some e) := by
  unfold Application.AddService
  rw [h]

/-- Witness for `addService_export_failure_spec` at a concrete state. -/
theorem addService_export_failure_spec_witness :
    ({ exposeResult := some "export failed", exportResult := none,
        addObjectResult := none } : AddServiceEnv).exposeResult =
      some "export failed" ∧
    sampleApp.AddService sampleService
        { exposeResult := some "export failed", exportResult := none,
          addObjectResult := none } =
      ({ sampleApp with
          services := mapPut sampleApp.services sampleService.Path
            sampleService }, some "export failed") :=
  ⟨rfl, addService_export_failure_spec sampleApp sampleService
      "export failed" _ rfl⟩

/-- C2: `GenerateUUID` is a pure function of the configuration and its
argument (it is modelled as a Lean function, with no state access beyond
reading the configuration). Whenever the configured suffix is the fixed
128 bit suffix, a value of byte length 8 (Go `len`) is returned with the
configured base prefix dropped, and any other value is returned as
`base + value + suffix`. -/
theorem generateUUID_spec (app : Application) (v : String)
    (h : app.config.UUIDSuffix = UUIDSuffix) :
    app.GenerateUUID v =
      if v.utf8ByteSize = 8 then v ++ UUIDSuffix
      else app.config.UUID ++ v ++ UUIDSuffix := by
  simp only [Application.GenerateUUID, h]
  by_cases h8 : v.utf8ByteSize = 8 <;> simp [h8]

/-- Witness for `generateUUID_spec` at concrete inputs. -/
theorem generateUUID_spec_witness :
    sampleApp.config.UUIDSuffix = UUIDSuffix ∧
    sampleApp.GenerateUUID "feed1234" =
      (if "feed1234".utf8ByteSize = 8 then "feed1234" ++ UUIDSuffix
       else sampleApp.config.UUID ++ "feed1234" ++ UUIDSuffix) :=
  ⟨rfl, generateUUID_spec sampleApp "feed1234" rfl⟩

/-- C3 counterexample: the claim asserts that `GenerateUUID("180D")`
returns `"180D"` followed by the fixed suffix regardless of the
configured base, but `"180D"` has length 4, not 8, so the length rule
keeps the base: with the configured base `"0000"` the result is
`"0000180D-..."`, not `"180D-..."`. -/
theorem generateUUID_180D_counterexample :
    sampleApp.GenerateUUID "180D" ≠ "180D" ++ UUIDSuffix ∧
    sampleApp.GenerateUUID "180D" = "0000" ++ "180D" ++ UUIDSuffix := by
  exact ⟨by decide, rfl⟩

/-- C3 amended: `GenerateUUID("180D")` returns base + `"180D"` + fixed
suffix (the input has length 4, so the length-8 rule does not drop the
base); `GenerateUUID("feed1234")` (length 8) drops the base;
`GenerateUUID("someBase0001")` (length 12) returns base + value + fixed
suffix. -/
theorem generateUUID_examples (app : Application)
    (h : app.config.UUIDSuffix = UUIDSuffix) :
    app.GenerateUUID "180D" = app.config.UUID ++ "180D" ++ UUIDSuffix ∧
    app.GenerateUUID "feed1234" = "feed1234" ++ UUIDSuffix ∧
    app.GenerateUUID "someBase0001" =
      app.config.UUID ++ "someBase0001" ++ UUIDSuffix := by
  refine ⟨?_, ?_, ?_⟩
  · simp only [Application.GenerateUUID, h]
    rw [if_neg (by decide)]
  · simp only [Application.GenerateUUID, h]
    rw [if_pos (by decide)]
    decide
  · simp only [Application.GenerateUUID, h]
    rw [if_neg (by decide)]

/-- Witness for `generateUUID_examples` at the sample configuration. -/
theorem generateUUID_examples_witness :
    sampleApp.config.UUIDSuffix = UUIDSuffix ∧
    (sampleApp.GenerateUUID "180D" =
        sampleApp.config.UUID ++ "180D" ++ UUIDSuffix ∧
      sampleApp.GenerateUUID "feed1234" = "feed1234" ++ UUIDSuffix ∧
      sampleApp.GenerateUUID "someBase0001" =
        sampleApp.config.UUID ++ "someBase0001" ++ UUIDSuffix) :=
  ⟨rfl, generateUUID_examples sampleApp rfl⟩

/-- C4: for every inbound dispatch (`HandleRead`, `HandleWrite`,
`HandleDescriptorRead`, `HandleDescriptorWrite`): a nil callback slot
yields a `CallbackError` with code `CALLBACK_NOT_REGISTERED` and the
fixed message; a registered callback that errors yields code
`CALLBACK_FUNCTION_ERROR` carrying the callback's message; a successful
callback has its byte payload passed through unchanged by the read
variants and yields a nil error from the write variants. -/
theorem handleDispatch_taxonomy (app : Application) (s c d : String)
    (v : List Nat) :
    (app.config.ReadFunc = none →
      app.HandleRead s c =
        (some [], some (NewCallbackError CALLBACK_NOT_REGISTERED
          "No callback registered."))) ∧
    (∀ f b m, app.config.ReadFunc = some f → f s c = (b, some m) →
      app.HandleRead s c =
        (b, some (NewCallbackError CALLBACK_FUNCTION_ERROR m))) ∧
    (∀ f b, app.config.ReadFunc = some f → f s c = (b, none) →
      app.HandleRead s c = (b, none)) ∧
    (app.config.WriteFunc = none →
      app.HandleWrite s c v =
        some (NewCallbackError CALLBACK_NOT_REGISTERED
          "No callback registered.")) ∧
    (∀ f m, app.config.WriteFunc = some f → f s c v = some m →
      app.HandleWrite s c v =
        some (NewCallbackError CALLBACK_FUNCTION_ERROR m)) ∧
    (∀ f, app.config.WriteFunc = some f → f s c v = none →
      app.HandleWrite s c v = none) ∧
    (app.config.DescReadFunc = none →
      app.HandleDescriptorRead s c d =
        (some [], some (NewCallbackError CALLBACK_NOT_REGISTERED
          "No callback registered."))) ∧
    (∀ f b m, app.config.DescReadFunc = some f → f s c d = (b, some m) →
      app.HandleDescriptorRead s c d =
        (b, some (NewCallbackError CALLBACK_FUNCTION_ERROR m))) ∧
    (∀ f b, app.config.DescReadFunc = some f → f s c d = (b, none) →
      app.HandleDescriptorRead s c d = (b, none)) ∧
    (app.config.DescWriteFunc = none →
      app.HandleDescriptorWrite s c d v =
        some (NewCallbackError CALLBACK_NOT_REGISTERED
          "No callback registered.")) ∧
    (∀ f m, app.config.DescWriteFunc = some f → f s c d v = some m →
      app.HandleDescriptorWrite s c d v =
        some (NewCallbackError CALLBACK_FUNCTION_ERROR m)) ∧
    (∀ f, app.config.DescWriteFunc = some f → f s c d v = none →
      app.HandleDescriptorWrite s c d v = none) := by
  refine ⟨?_, ?_, ?_, ?_, ?_, ?_, ?_, ?_, ?_, ?_, ?_, ?_⟩
  · intro h
    simp [Application.HandleRead, h, NewCallbackError,
      CALLBACK_NOT_REGISTERED]
  · intro f b m hf hcall
    simp [Application.HandleRead, hf, hcall, NewCallbackError,
      CALLBACK_FUNCTION_ERROR]
  · intro f b hf hcall
    simp [Application.HandleRead, hf, hcall]
  · intro h
    simp [Application.HandleWrite, h, NewCallbackError,
      CALLBACK_NOT_REGISTERED]
  · intro f m hf hcall
    simp [Application.HandleWrite, hf, hcall, NewCallbackError,
      CALLBACK_FUNCTION_ERROR]
  · intro f hf hcall
    simp [Application.HandleWrite, hf, hcall]
  · intro h
    simp [Application.HandleDescriptorRead, h, NewCallbackError,
      CALLBACK_NOT_REGISTERED]
  · intro f b m hf hcall
    simp [Application.HandleDescriptorRead, hf, hcall, NewCallbackError,
      CALLBACK_FUNCTION_ERROR]
  · intro f b hf hcall
    simp [Application.HandleDescriptorRead, hf, hcall]
  · intro h
    simp [Application.HandleDescriptorWrite, h, NewCallbackError,
      CALLBACK_NOT_REGISTERED]
  · intro f m hf hcall
    simp [Application.HandleDescriptorWrite, hf, hcall, NewCallbackError,
      CALLBACK_FUNCTION_ERROR]
  · intro f hf hcall
    simp [Application.HandleDescriptorWrite, hf, hcall]

/-- Witness for `handleDispatch_taxonomy`: a nil read slot, an erroring
write callback, and a succeeding descriptor read, at concrete inputs. -/
theorem handleDispatch_taxonomy_witness :
    sampleApp.HandleRead "s" "c" =
      (some [], some (NewCallbackError CALLBACK_NOT_REGISTERED
        "No callback registered.")) ∧
    cbApp.HandleWrite "s" "c" [7] =
      some (NewCallbackError CALLBACK_FUNCTION_ERROR "boom") ∧
    cbApp.HandleDescriptorRead "s" "c" "d" = (some [9], none) :=
  ⟨(handleDispatch_taxonomy sampleApp "s" "c" "d" []).1 rfl,
   (handleDispatch_taxonomy cbApp "s" "c" "d" [7]).2.2.2.2.1
     failWriteCb "boom" rfl rfl,
   (handleDispatch_taxonomy cbApp "s" "c" "d" []).2.2.2.2.2.2.2.2.1
     okDescReadCb (some [9]) rfl rfl⟩

/-- C5: `StartAdvertising` is idempotent — with an advertisement already
active it makes no daemon call, changes no state, and returns nil. -/
theorem startAdvertising_idempotent (app : Application)
    (device_name : String) (env : StartAdvEnv) (a : LEAdvertisement1)
    (h : app.advertisement = some a) :
    app.StartAdvertising device_name env = (app, [], none) := by
  unfold Application.StartAdvertising
  rw [h]

/-- Witness for `startAdvertising_idempotent` at a concrete state with an
active advertisement. -/
theorem startAdvertising_idempotent_witness :
    advApp.advertisement = some sampleAdv ∧
    advApp.StartAdvertising "hci0" allOkStartEnv = (advApp, [], none) :=
  ⟨rfl, startAdvertising_idempotent advApp "hci0" allOkStartEnv
    sampleAdv rfl⟩

/-- C6: with an active advertisement, `StopAdvertising` issues exactly one
`UnregisterAdvertisement` daemon call, clears the local advertisement
reference unconditionally (also when the daemon call failed), and returns
the daemon's result; with none active it makes no daemon call and returns
nil. -/
theorem stopAdvertising_spec (app : Application) (r : Option String) :
    (∀ a, app.advertisement = some a →
      app.StopAdvertising r =
        ({ app with advertisement := none },
          [DaemonCall.unregisterAdvertisement a.device_path a.objectPath],
          r)) ∧
    (app.advertisement = none →
      app.StopAdvertising r = (app, [], none)) := by
  constructor
  · intro a h
    unfold Application.StopAdvertising
    rw [h]
    cases r <;> rfl
  · intro h
    unfold Application.StopAdvertising
    rw [h]

/-- Witness for `stopAdvertising_spec`: stopping with an active
advertisement and a failing daemon call still clears the reference and
returns the daemon error. -/
theorem stopAdvertising_spec_witness :
    advApp.advertisement = some sampleAdv ∧
    advApp.StopAdvertising (some "daemon down") =
      ({ advApp with advertisement := none },
        [DaemonCall.unregisterAdvertisement sampleAdv.device_path
          sampleAdv.objectPath],
        some "daemon down") :=
  ⟨rfl, (stopAdvertising_spec advApp (some "daemon down")).1 sampleAdv rfl⟩

/-- C7 counterexample: the claim as stated is false on the code, because
`serviceIndex` is a Go `int` and its increment wraps at 64 bits. At the
concrete state `maxIdxApp`, whose counter holds the largest `int` value,
a `CreateService` call wraps the counter to the smallest `int` value —
the counter decreases, refuting "strictly increments ... never
decreases" quantified over every Application state. -/
theorem createService_wrap_counterexample :
    (maxIdxApp.CreateService sampleService.properties
        []).1.config.serviceIndex = int64Min ∧
    (maxIdxApp.CreateService sampleService.properties
        []).1.config.serviceIndex < maxIdxApp.config.serviceIndex := by
  exact ⟨by decide, by decide⟩

/-- C7 amended: `serviceIndex` wraps at 64 bits, so the invariant holds
short of overflow: provided the counter is in the 64 bit range and the
number of `CreateService` calls in the sequence cannot overflow it, each
`CreateService` strictly increments the counter (by exactly one) and
allocates the path `"<appPath>/service<N>"` (a root path collapsing to
the empty prefix, via `servicePathFor`); `RemoveService` never changes
the counter; across the sequence the counter never decreases and the
allocated paths are numbered strictly monotonically and pairwise
distinct — no later `CreateService` returns a previously allocated path,
even after that service was removed. -/
theorem createService_path_allocation :
    (∀ (app : Application) (p : GattService1Properties) (a : List Bool),
      int64Min ≤ app.config.serviceIndex →
      app.config.serviceIndex < int64Max →
      (app.CreateService p a).1.config.serviceIndex =
        app.config.serviceIndex + 1 ∧
      (app.CreateService p a).2.objectPath =
        servicePathFor app.config.ObjectPath
          (app.config.serviceIndex + 1)) ∧
    (∀ (app : Application) (s : GattService1) (env : RemoveServiceEnv),
      (app.RemoveService s env).1.config.serviceIndex =
        app.config.serviceIndex) ∧
    (∀ (app : Application) (ops : List AppOp),
      int64Min ≤ app.config.serviceIndex →
      app.config.serviceIndex + countCreates ops ≤ int64Max →
      app.config.serviceIndex ≤ (runOps app ops).1.config.serviceIndex ∧
      (∃ idxs : List Int,
        (runOps app ops).2 =
          idxs.map (servicePathFor app.config.ObjectPath) ∧
        idxs.Chain' (· < ·)) ∧
      ((runOps app ops).2).Nodup) := by
  refine ⟨?_, ?_, ?_⟩
  · intro app p a hlo hhi
    have hwrap0 : int64Wrap (app.config.serviceIndex + 1) =
        app.config.serviceIndex + 1 := by
      apply int64Wrap_eq_self
      · unfold int64Min at hlo ⊢
        omega
      · unfold int64Max at hhi ⊢
        omega
    refine ⟨hwrap0, ?_⟩
    rw [createService_allocated_path, hwrap0]
  · intro app s env
    rw [removeService_config]
  · intro app ops hlo hhi
    obtain ⟨-, hle, idxs, heq, -, hchain⟩ := runOps_spec ops app hlo hhi
    exact ⟨hle, ⟨idxs, heq, hchain⟩, runOps_paths_nodup app ops hlo hhi⟩

/-- Witness for `createService_path_allocation`: the per-call increment
and the sequence-level conclusions at the fresh `sampleApp` with a
concrete two-create sequence. -/
theorem createService_path_allocation_witness :
    int64Min ≤ sampleApp.config.serviceIndex ∧
    sampleApp.config.serviceIndex < int64Max ∧
    sampleApp.config.serviceIndex +
      countCreates [AppOp.create sampleService.properties [],
        AppOp.create sampleService.properties [true]] ≤ int64Max ∧
    ((sampleApp.CreateService sampleService.properties
        []).1.config.serviceIndex = sampleApp.config.serviceIndex + 1 ∧
      (sampleApp.CreateService sampleService.properties []).2.objectPath =
        servicePathFor sampleApp.config.ObjectPath
          (sampleApp.config.serviceIndex + 1)) ∧
    (sampleApp.config.serviceIndex ≤
        (runOps sampleApp [AppOp.create sampleService.properties [],
          AppOp.create sampleService.properties
            [true]]).1.config.serviceIndex ∧
      (∃ idxs : List Int,
        (runOps sampleApp [AppOp.create sampleService.properties [],
            AppOp.create sampleService.properties [true]]).2 =
          idxs.map (servicePathFor sampleApp.config.ObjectPath) ∧
        idxs.Chain' (· < ·)) ∧
      ((runOps sampleApp [AppOp.create sampleService.properties [],
        AppOp.create sampleService.properties [true]]).2).Nodup) :=
  ⟨by decide, by decide, by decide,
   createService_path_allocation.1 sampleApp sampleService.properties []
     (by decide) (by decide),
   createService_path_allocation.2.2 sampleApp
     [AppOp.create sampleService.properties [],
      AppOp.create sampleService.properties [true]]
     (by decide) (by decide)⟩

/-- C8: the children of the introspection node built by `exportTree` are
exactly the walked service/characteristic/descriptor paths, each with its
leading path separator stripped (the code drops the first character); its
interfaces are exactly the generic introspection interface and the
object-manager interface; and the node shape depends only on the
registered services, so two builds with no tree mutation in between are
equal. -/
theorem exportTree_shape (app : Application) :
    (exportTreeNode app).children =
      (treeWalkPaths app.GetServices).map childNode ∧
    (exportTreeNode app).interfaces =
      [IntrospectData, ObjectManagerIntrospectData] ∧
    (∀ app2 : Application, app2.GetServices = app.GetServices →
      exportTreeNode app2 = exportTreeNode app) := by
  refine ⟨exportTreeChildren_eq_map app.GetServices, rfl, ?_⟩
  intro app2 h
  unfold exportTreeNode
  rw [h]

/-- Witness for `exportTree_shape` at a concrete state. -/
theorem exportTree_shape_witness :
    (exportTreeNode sampleApp).children =
      (treeWalkPaths sampleApp.GetServices).map childNode ∧
    exportTreeNode sampleApp = exportTreeNode sampleApp :=
  ⟨(exportTree_shape sampleApp).1,
   (exportTree_shape sampleApp).2.2 sampleApp rfl⟩

/-- C9: with no active advertisement and the construction and export of
the advertisement object succeeding, `StartAdvertising(deviceName)`
builds the advertisement at the fixed path `"/org/bluez/advertisement/0"`
with type `"peripheral"` and exactly the UUIDs of the advertised
services, and issues exactly one `RegisterAdvertisement` daemon call at
device path `"/org/bluez/" + deviceName` passing the advertisement path
and an empty options map; the daemon's reply is returned as the result. -/
theorem startAdvertising_registers (app : Application)
    (device_name : String) (env : StartAdvEnv)
    (h : app.advertisement = none) (hnew : env.newAdvResult = none)
    (hexp : env.exposeResult = none) :
    app.StartAdvertising device_name env =
      ({ app with
          advertisement := some {
            objectPath := "/org/bluez/advertisement/0",
            device_path := "/org/bluez/" ++ device_name,
            properties := {
              «Type» := "peripheral",
              ServiceUUIDs :=
                (app.services.filter (fun x => x.2.Advertised)).map
                  (fun x => x.2.properties.UUID),
              ManufacturerData := [], SolicitUUIDs := [],
              ServiceData := [], Includes := [],
              LocalName := app.config.LocalName, Appearance := 0,
              Duration := 2, Timeout := 60 } } },
        [DaemonCall.registerAdvertisement ("/org/bluez/" ++ device_name)
          "/org/bluez/advertisement/0" []],
        env.registerResult) := by
  unfold Application.StartAdvertising
  rw [h, hnew, hexp]
  cases env.registerResult <;> rfl

/-- Witness for `startAdvertising_registers`: one registration call from
the fresh `sampleApp`. -/
theorem startAdvertising_registers_witness :
    sampleApp.advertisement = none ∧
    (sampleApp.StartAdvertising "hci0" allOkStartEnv).2.1 =
      [DaemonCall.registerAdvertisement "/org/bluez/hci0"
        "/org/bluez/advertisement/0" []] := by
  refine ⟨rfl, ?_⟩
  rw [startAdvertising_registers sampleApp "hci0" allOkStartEnv
    rfl rfl rfl]
  decide

/-- C10: with the respective callback slots unset, `HandleRead` and
`HandleDescriptorRead` return the non-nil empty byte slice produced by
`make([]byte, 0)` (modelled as `some []`, length zero) alongside the
`CALLBACK_NOT_REGISTERED` error, and the fixed message of that error is
exactly "No callback registered." for all four handlers. -/
theorem nilCallback_read_payload (app : Application) (s c d : String)
    (v : List Nat) (hr : app.config.ReadFunc = none)
    (hdr : app.config.DescReadFunc = none)
    (hw : app.config.WriteFunc = none)
    (hdw : app.config.DescWriteFunc = none) :
    app.HandleRead s c =
      (some [], some (NewCallbackError CALLBACK_NOT_REGISTERED
        "No callback registered.")) ∧
    app.HandleDescriptorRead s c d =
      (some [], some (NewCallbackError CALLBACK_NOT_REGISTERED
        "No callback registered.")) ∧
    app.HandleWrite s c v =
      some (NewCallbackError CALLBACK_NOT_REGISTERED
        "No callback registered.") ∧
    app.HandleDescriptorWrite s c d v =
      some (NewCallbackError CALLBACK_NOT_REGISTERED
        "No callback registered.") := by
  refine ⟨?_, ?_, ?_, ?_⟩
  · simp [Application.HandleRead, hr, NewCallbackError,
      CALLBACK_NOT_REGISTERED]
  · simp [Application.HandleDescriptorRead, hdr, NewCallbackError,
      CALLBACK_NOT_REGISTERED]
  · simp [Application.HandleWrite, hw, NewCallbackError,
      CALLBACK_NOT_REGISTERED]
  · simp [Application.HandleDescriptorWrite, hdw, NewCallbackError,
      CALLBACK_NOT_REGISTERED]

/-- Witness for `nilCallback_read_payload` at the fresh `sampleApp`,
whose four callback slots are all nil. -/
theorem nilCallback_read_payload_witness :
    sampleApp.config.ReadFunc = none ∧
    (sampleApp.HandleRead "s" "c" =
        (some [], some (NewCallbackError CALLBACK_NOT_REGISTERED
          "No callback registered.")) ∧
      sampleApp.HandleDescriptorRead "s" "c" "d" =
        (some [], some (NewCallbackError CALLBACK_NOT_REGISTERED
          "No callback registered.")) ∧
      sampleApp.HandleWrite "s" "c" [1] =
        some (NewCallbackError CALLBACK_NOT_REGISTERED
          "No callback registered.") ∧
      sampleApp.HandleDescriptorWrite "s" "c" "d" [1] =
        some (NewCallbackError CALLBACK_NOT_REGISTERED
          "No callback registered.")) :=
  ⟨rfl, nilCallback_read_payload sampleApp "s" "c" "d" [1]
      rfl rfl rfl rfl⟩

end GoBluetooth
